import Mathlib

/-!
Verification of the where-clause / statement assembly engine of
`little_pger.py` (a thin PostgreSQL/psycopg2 wrapper).

The Python source is shallowly embedded below: Python values that can occur
in filter maps and value maps become the inductive type `PyVal`; filter-map
keys (plain column string, 2-tuple, 3-tuple) become `FilterKey`; Python
dicts become association lists whose order stands for the dict's iteration
order; raises become `Except` errors.  Each definition carries the line
numbers of the source it embeds.
-/

set_option autoImplicit false

/-- Python values that flow through filter maps and value maps.
`vtuple` is a Python `tuple`, `vlist` a Python `list` (the two are distinct:
`isinstance(v, tuple)` in `_get_where_clause_comp_item` is true only for
tuples), `vset` a Python `set`, `vnone` is `None`. -/
inductive PyVal where
  | vint (n : Int)
  | vstr (s : String)
  | vtuple (l : List PyVal)
  | vlist (l : List PyVal)
  | vset (l : List PyVal)
  | vnone

mutual

/-- Python `==` on the embedded values, used by `dict.get` in the
`map_values` lookup.  (It is never consulted on sets in the source, because
sets are unhashable and the lookup is guarded by a hashability check.) -/
def PyVal.beq : PyVal → PyVal → Bool
  | PyVal.vint m, PyVal.vint n => m == n
  | PyVal.vstr s, PyVal.vstr t => s == t
  | PyVal.vtuple l, PyVal.vtuple m => PyVal.beqList l m
  | PyVal.vlist l, PyVal.vlist m => PyVal.beqList l m
  | PyVal.vset l, PyVal.vset m => PyVal.beqList l m
  | PyVal.vnone, PyVal.vnone => true
  | _, _ => false

/-- Elementwise equality of value lists (for `PyVal.beq`). -/
def PyVal.beqList : List PyVal → List PyVal → Bool
  | [], [] => true
  | a :: as, b :: bs => PyVal.beq a b && PyVal.beqList as bs
  | _, _ => false

end

/-- Keys of a filter map: a plain column name string, a 2-tuple
`(column, op)`, or a 3-tuple `(column, op, transformFn)`
(see `_get_where_clause_comp_item`, lines 30-41). -/
inductive FilterKey where
  | col (c : String)
  | pair (c op : String)
  | triple (c op fn : String)
deriving DecidableEq, Repr

/-- The reserved `"exists"` filter key (line 48 compares the key against the
string literal; tuple keys never compare equal to a string). -/
def existsKey : FilterKey := FilterKey.col ("exists")

/-- Error outcomes of the embedded code.  Each constructor records one
concrete raise site of the source:
* `invalidFilter`: the `assert isinstance(v, string_types)` at line 49
  (the spec's `InvalidFilterError`);
* `assertFailed`: the `assert type_ in ('and', 'or')` at line 45;
* `tooManyRows`: `LittlePGerError('your query returns more than one row')`
  at line 242 (the spec's `TooManyRowsError`);
* `unsupportedOption`: the `TypeError` raised by `_check_args`, lines 59-63
  (the spec's `UnsupportedOptionError`), carrying the function name and the
  offending option names;
* `nameError`: a Python `NameError` on an unbound name (line 430 references
  the module-level name `select1`, which does not exist);
* `littlePGerError`: any other `LittlePGerError(msg)` raise. -/
inductive PGError where
  | invalidFilter
  | assertFailed
  | tooManyRows
  | unsupportedOption (fn : String) (bad : List String)
  | nameError (n : String)
  | littlePGerError (msg : String)
deriving DecidableEq, Repr

/-- A filter map (Python dict from filter key to filter value), in
iteration order. -/
abbrev FDict := List (FilterKey × PyVal)

/-- A value map (Python dict from column name to value), in iteration
order. -/
abbrev VDict := List (String × PyVal)

/-- A result row (psycopg2 `RealDictCursor` row: column name to value). -/
abbrev Row := List (String × PyVal)

/-- Python `sep.join(strs)`. -/
def pyJoin (sep : String) : List String → String
  | [] => ""
  | a :: t =>
    match t with
    | [] => a
    | _ :: _ => a ++ sep ++ pyJoin sep t

/-- `_flatten` (lines 19-26): expand every set one level, keep everything
else as a single element. -/
def flatten : List PyVal → List PyVal
  | [] => []
  | v :: rest =>
    (match v with
     | PyVal.vset l => l
     | _ => [v]) ++ flatten rest

/-- `_get_where_clause_comp_item` (lines 30-41): the
`(field, comp_operator, value placeholder)` triple.  The key's shape is
tested first (`isinstance(c, tuple)`), then the value's
(`isinstance(v, tuple)`). -/
def getWhereClauseCompItem (c : FilterKey) (v : PyVal) : String × String × String :=
  match c with
  | FilterKey.pair col op => (col, op, "%s")
  | FilterKey.triple col op fn => (fn ++ "(" ++ col ++ ")", op, fn ++ "(%s)")
  | FilterKey.col col =>
    match v with
    | PyVal.vtuple _ => (col, "in", "%s")
    | _ => (col, "=", "%s")

/-- `'%s %s %s' % _get_where_clause_comp_item(c, v)` (lines 52 and 55). -/
def compItemStr (c : FilterKey) (v : PyVal) : String :=
  let t := getWhereClauseCompItem c v
  t.1 ++ " " ++ t.2.1 ++ " " ++ t.2.2

/-- One loop iteration of `_get_where_clause` (lines 47-55): the boolean
fragment appended to `wc` for one `(key, value)` entry. -/
def getWhereClauseFrag (c : FilterKey) (v : PyVal) : Except PGError String :=
  if c = existsKey then
    match v with
    | PyVal.vstr s => Except.ok ("exists (" ++ s ++ ")")
    | _ => Except.error PGError.invalidFilter
  else
    match v with
    | PyVal.vset l =>
      Except.ok ("(" ++ pyJoin (" and ") (l.map (fun vv => compItemStr c vv)) ++ ")")
    | _ => Except.ok (compItemStr c v)

/-- `_get_where_clause(items, type_)` (lines 44-56): join the per-entry
fragments with `" and "` or `" or "`. -/
def getWhereClause (items : FDict) (type_ : String) : Except PGError String :=
  if type_ = "and" ∨ type_ = "or" then do
    let wc ← items.mapM (fun cv => getWhereClauseFrag cv.1 cv.2)
    pure (pyJoin (" " ++ type_ ++ " ") wc)
  else Except.error PGError.assertFailed

/-- `_check_args` (lines 59-64).  Python reports
`list(set(args) - set(allowed_args))`; a Python set has no specified order,
so the offending names are modelled as the first-occurrence-ordered
deduplicated list. -/
def checkArgs (funcName : String) (args allowedArgs : List String) : Except PGError Unit :=
  if args.all (fun a => allowedArgs.contains a) then Except.ok ()
  else
    Except.error
      (PGError.unsupportedOption funcName ((args.filter (fun a => !allowedArgs.contains a)).dedup))

/-- `select`'s allow-list (lines 152-156). -/
def selectAllowedArgs : List String :=
  ["what", "join", "inner_join", "left_join", "right_join", "where",
   "where_or", "order_by", "group_by", "limit", "offset", "rows",
   "get_count", "debug_print", "debug_assert"]

/-- `select1`'s allow-list (lines 273-277). -/
def select1AllowedArgs : List String :=
  ["what", "join", "inner_join", "left_join", "right_join", "where",
   "where_or", "order_by", "group_by", "limit", "offset", "debug_print",
   "debug_assert"]

/-- `select_id`'s allow-list (lines 295-297). -/
def selectIdAllowedArgs : List String :=
  ["where", "where_or", "debug_print", "debug_assert"]

/-- `insert`'s allow-list (lines 321-324). -/
def insertAllowedArgs : List String :=
  ["values", "filter_values", "map_values", "return_id", "debug_print",
   "debug_assert"]

/-- `update`'s allow-list (lines 369-372). -/
def updateAllowedArgs : List String :=
  ["set", "values", "where", "where_or", "filter_values", "map_values",
   "debug_print", "debug_assert"]

/-- `upsert`'s allow-list (lines 421-423). -/
def upsertAllowedArgs : List String :=
  ["set", "values", "filter_values", "map_values", "return_id",
   "debug_print", "debug_assert"]

/-- `delete`'s allow-list (lines 494-496). -/
def deleteAllowedArgs : List String :=
  ["where", "where_or", "tighten_sequence", "debug_print", "debug_assert"]

/-- `count`'s allow-list (lines 536-539). -/
def countAllowedArgs : List String :=
  ["what", "join", "inner_join", "left_join", "right_join", "where",
   "where_or", "group_by", "debug_print", "debug_assert"]

/-- `exists`'s allow-list (lines 563-565). -/
def existsAllowedArgs : List String :=
  ["what", "where", "where_or", "debug_print", "debug_assert"]

/-- Python truthiness of an embedded value (`not values[pkey]`, line 448). -/
def pyFalsy : PyVal → Bool
  | PyVal.vint n => n == 0
  | PyVal.vstr s => s == ""
  | PyVal.vtuple l => l.isEmpty
  | PyVal.vlist l => l.isEmpty
  | PyVal.vset l => l.isEmpty
  | PyVal.vnone => true

/-- `isinstance(v, collections.Hashable)` (lines 335, 381, 453): lists and
sets are unhashable, everything else embedded here is hashable. -/
def isHashable : PyVal → Bool
  | PyVal.vlist _ => false
  | PyVal.vset _ => false
  | _ => true

/-- Python `map_values.get(v, v)`: first entry of the mapping whose key
equals `v`, else `v` itself. -/
def mapGet (mv : List (PyVal × PyVal)) (k dflt : PyVal) : PyVal :=
  match mv.find? (fun p => PyVal.beq p.1 k) with
  | some p => p.2
  | none => dflt

/-- The `map_values` comprehension
`{k: (map_values.get(v, v) if isinstance(v, Hashable) else v) for k, v in values.items()}`
(lines 334-337, 380-383, 452-455). -/
def applyMapValues (mv : List (PyVal × PyVal)) (values : VDict) : VDict :=
  values.map (fun kv => (kv.1, if isHashable kv.2 then mapGet mv kv.2 kv.2 else kv.2))

/-- The `filter_values` comprehension
`{c: v for c, v in values.items() if c in columns}` (lines 332, 378, 446). -/
def filterValuesByColumns (columns : List String) (values : VDict) : VDict :=
  values.filter (fun cv => columns.contains cv.1)

/-- Python `dict.pop(key, None)` / `del dict[key]` on a unique-key dict:
drop the entry with that key. -/
def dictDel (d : VDict) (k : String) : VDict :=
  d.filter (fun p => p.1 != k)

/-- `where.pop('exists', None)` (lines 220, 224) on a filter map. -/
def existsPop (d : FDict) : FDict :=
  d.filter (fun p => p.1 != existsKey)

/-- The bound parameters `select` passes to `_exec_query` for a `where`
map (lines 217-236): the boolean clause is built from the full map, then
the reserved `'exists'` entry is popped from the (copied) map *before*
`list(where.values())` is taken at line 236. -/
def selectWhereVals (w : FDict) : List PyVal :=
  (existsPop w).map Prod.snd

/-- The query-value list as `_exec_query` (line 615) binds it:
`qvalues = _flatten(qvalues)`. -/
def execQueryVals (vals : List PyVal) : List PyVal :=
  flatten vals

/-- The statement text as `_exec_query` (line 614) executes it. -/
def execQueryText (q : String) : String :=
  "set transform_null_equals to on; " ++ q

/-- Result of `select`: either every row (`rows='all'`) or at most one row
(`rows='one'`; `none` when no row matched). -/
inductive SelectResult where
  | all (rs : List Row)
  | one (r : Option Row)

/-- Result shaping of `select` (lines 238-243): `'all'` returns every row;
`'one'` raises `LittlePGerError('your query returns more than one row')`
when more than one row came back, else returns `results[0] if results else
None`.  (Any other `rows` value is rejected earlier, at line 168; the
Python fall-through would return `None`, i.e. `one none`.) -/
def selectShape (rows : String) (results : List Row) : Except PGError SelectResult :=
  if rows = "all" then Except.ok (SelectResult.all results)
  else if rows = "one" then
    if results.length > 1 then Except.error PGError.tooManyRows
    else Except.ok (SelectResult.one results.head?)
  else Except.ok (SelectResult.one none)

/-- The `rows` option validation of `select` (lines 167-169). -/
def selectRowsCheck (rows : String) : Except PGError Unit :=
  if rows = "all" ∨ rows = "one" then Except.ok ()
  else Except.error (PGError.littlePGerError ("rows arg should be either all or one"))

/-- `update` (lines 351-402), restricted to its pure statement-building
part: option check first (line 369), then `filter_values` trimming
(lines 376-378), the `map_values` comprehension (lines 379-383), the
`update .. set (..) = (..)` skeleton (lines 384-389), the where clauses
(lines 390-398, note: no `'exists'` pop), `returning *` (line 399), and
the parameter list `values + where + where_or` (line 400). -/
def updateBuild (table : String) (kwNames : List String) (values : VDict)
    (whereAnd whereOr : FDict) (filterValues : Bool) (columns : List String)
    (mapValues : List (PyVal × PyVal)) : Except PGError (String × List PyVal) := do
  let _ ← checkArgs ("update") kwNames updateAllowedArgs
  let values := if filterValues then filterValuesByColumns columns values else values
  let values := applyMapValues mapValues values
  let q := "update " ++ table ++ " set (" ++ pyJoin (",") (values.map Prod.fst)
    ++ ") = (" ++ pyJoin (",") (values.map (fun _ => "%s")) ++ ")"
  let q ←
    if whereAnd.isEmpty then pure q
    else (getWhereClause whereAnd ("and")).map (fun wc => q ++ " where " ++ wc)
  let q ←
    if whereOr.isEmpty then pure q
    else
      (getWhereClause whereOr ("or")).map (fun oc =>
        if whereAnd.isEmpty then q ++ " where " ++ oc else q ++ " and (" ++ oc ++ ")")
  let q := q ++ " returning *"
  pure (q, values.map Prod.snd ++ whereAnd.map Prod.snd ++ whereOr.map Prod.snd)

/-- The server-version dispatch of `LittlePGer.__init__` (lines 90-94):
`v[0] > 9 or (v[0] >= 9 and v[1] >= 5)` selects the native
(`_real_upsert`) implementation. -/
def upsertImplIsReal (v : Nat × Nat) : Bool :=
  v.1 > 9 || (v.1 ≥ 9 && v.2 ≥ 5)

/-- Lines 444-449 of `_real_upsert`: under `filter_values`, trim the value
map to known columns and delete the primary-key entry when it is present
with a falsy value; without `filter_values`, the map is untouched. -/
def upsertFilterPhase (pkey : String) (columns : List String)
    (filterValues : Bool) (values : VDict) : VDict :=
  if filterValues then
    let v := filterValuesByColumns columns values
    match v.find? (fun cv => cv.1 == pkey) with
    | some cv => if pyFalsy cv.2 then dictDel v pkey else v
    | none => v
  else values

/-- `_real_upsert` (lines 437-470), restricted to its pure
statement-building part: the default-values form for an empty value map
(lines 440-441), else the filter phase (lines 444-449), the `map_values`
comprehension (lines 450-455), and the `insert .. on conflict (<pkey>) do
update set <c> = excluded.<c> .. returning *` statement exactly as the
triple-quoted template at lines 456-469 formats it, paired with
`values.values()` (line 470). -/
def realUpsertQuery (table pkey : String) (columns : List String)
    (filterValues : Bool) (mapValues : List (PyVal × PyVal))
    (values : VDict) : String × List PyVal :=
  if values.isEmpty then
    ("insert into " ++ table ++ " default values returning *", [])
  else
    let values := upsertFilterPhase pkey columns filterValues values
    let values := applyMapValues mapValues values
    let fields := pyJoin (",") (values.map Prod.fst)
    let vals := pyJoin (",") (values.map (fun _ => "%s"))
    let updates := pyJoin (",") (values.map (fun cv => cv.1 ++ " = excluded." ++ cv.1))
    ("\n              insert into " ++ table ++ " (" ++ fields ++ ") values (" ++ vals
       ++ ")\n              on conflict (" ++ pkey ++ ") do update set " ++ updates
       ++ " returning *\n            ",
     values.map Prod.snd)

/-- Which branch `_fake_upsert` takes after the check at line 430. -/
inductive FakeUpsertBranch where
  | updateBranch
  | insertBranch
deriving DecidableEq

/-- `_fake_upsert` (lines 426-435).  Line 430 reads
`if pkey in values and select1(cursor, table, where=\x7bpkey: values[pkey]\x7d):`.
The module defines no `select1` (the method is only reachable as
`self.select1`) and no `cursor`, so when `pkey in values` is true Python
evaluates the unbound name `select1` and raises
`NameError: name 'select1' is not defined`; the intended update branch is
unreachable.  When `pkey` is not in `values`, `and` short-circuits and the
plain-insert branch runs. -/
def fakeUpsert (pkey : String) (values : VDict) : Except PGError FakeUpsertBranch :=
  if (values.map Prod.fst).contains pkey then Except.error (PGError.nameError ("select1"))
  else Except.ok FakeUpsertBranch.insertBranch

/-! ### A small heap of Python dict objects

Python dicts are mutable objects passed by reference.  To state that the
verbs do not mutate their caller's dicts, the dict-manipulating steps of
each verb are embedded against an explicit heap: `alloc` models creating a
new dict (`dict.copy()`, a dict comprehension), `write` models in-place
mutation (`dict.pop`, `del dict[k]`), and a caller's dict is a reference
into the heap. -/

/-- A heap of dict objects of content type `δ`: allocated cells (newest
first) and the next fresh reference. -/
structure PyHeap (δ : Type) where
  cells : List (Nat × δ)
  next : Nat

/-- Dereference: the newest cell with this reference. -/
def PyHeap.read {δ : Type} (h : PyHeap δ) (r : Nat) : Option δ :=
  (h.cells.find? (fun p => p.1 == r)).map Prod.snd

/-- Dereference with a default (for refs the model treats as holding `{}`). -/
def PyHeap.readD {δ : Type} (h : PyHeap δ) (r : Nat) (dflt : δ) : δ :=
  (h.read r).getD dflt

/-- Allocate a fresh dict object; returns the new heap and the new ref. -/
def PyHeap.alloc {δ : Type} (h : PyHeap δ) (d : δ) : PyHeap δ × Nat :=
  (⟨(h.next, d) :: h.cells, h.next + 1⟩, h.next)

/-- Mutate the dict object behind `r` in place. -/
def PyHeap.write {δ : Type} (h : PyHeap δ) (r : Nat) (d : δ) : PyHeap δ :=
  ⟨(r, d) :: h.cells, h.next⟩

/-- Lines 217-224 of `select`, for one of the two (copied) filter maps:
`if where: .. where.pop('exists', None)` — pop the reserved key in place
when the dict is non-empty. -/
def selectPopStep (h : PyHeap FDict) (r : Nat) : PyHeap FDict :=
  if (h.readD r []).isEmpty then h
  else h.write r (existsPop (h.readD r []))

/-- The dict operations `select` performs on its caller's `where` and
`where_or` dicts (lines 161-162 and 217-224): copy each
(`kw.pop('where', {}).copy()`), then pop `'exists'` on the copies. -/
def selectDictOps (h : PyHeap FDict) (wRef woRef : Nat) : PyHeap FDict :=
  let a1 := h.alloc (h.readD wRef [])
  let a2 := a1.1.alloc (a1.1.readD woRef [])
  selectPopStep (selectPopStep a2.1 a1.2) a2.2

/-- The dict operations `insert` performs on its caller's `values` dict
(lines 325-337): nothing when the dict is falsy; otherwise the optional
`filter_values` comprehension builds a new dict, then the `map_values`
comprehension builds another new dict.  Returns the heap and the ref the
verb works with afterwards. -/
def insertValuesOps (h : PyHeap VDict) (vRef : Nat) (filterValues : Bool)
    (columns : List String) (mapValues : List (PyVal × PyVal)) : PyHeap VDict × Nat :=
  if (h.readD vRef []).isEmpty then (h, vRef)
  else
    let s1 :=
      if filterValues then h.alloc (filterValuesByColumns columns (h.readD vRef []))
      else (h, vRef)
    s1.1.alloc (applyMapValues mapValues (s1.1.readD s1.2 []))

/-- The dict operations `update` performs on its caller's `values` dict
(lines 373-383): the optional `filter_values` comprehension, then the
unconditional `map_values` comprehension. -/
def updateValuesOps (h : PyHeap VDict) (vRef : Nat) (filterValues : Bool)
    (columns : List String) (mapValues : List (PyVal × PyVal)) : PyHeap VDict × Nat :=
  let s1 :=
    if filterValues then h.alloc (filterValuesByColumns columns (h.readD vRef []))
    else (h, vRef)
  s1.1.alloc (applyMapValues mapValues (s1.1.readD s1.2 []))

/-- Lines 447-449 of `_real_upsert`:
`if pkey in values and not values[pkey]: del values[pkey]` — an in-place
delete on the dict behind `r` (which at that point is the fresh dict built
by the `filter_values` comprehension). -/
def upsertDelStep (h : PyHeap VDict) (r : Nat) (pkey : String) : PyHeap VDict :=
  let cur := h.readD r []
  match cur.find? (fun cv => cv.1 == pkey) with
  | some cv => if pyFalsy cv.2 then h.write r (dictDel cur pkey) else h
  | none => h

/-- The dict operations `_real_upsert` performs on its caller's `values`
dict (lines 438-455): nothing when the dict is falsy; otherwise under
`filter_values` a fresh filtered dict is built and the null-primary-key
delete mutates that fresh dict; finally the `map_values` comprehension
builds another new dict. -/
def realUpsertValuesOps (h : PyHeap VDict) (vRef : Nat) (pkey : String)
    (filterValues : Bool) (columns : List String)
    (mapValues : List (PyVal × PyVal)) : PyHeap VDict × Nat :=
  if (h.readD vRef []).isEmpty then (h, vRef)
  else
    let s1 :=
      if filterValues then
        let a := h.alloc (filterValuesByColumns columns (h.readD vRef []))
        (upsertDelStep a.1 a.2 pkey, a.2)
      else (h, vRef)
    s1.1.alloc (applyMapValues mapValues (s1.1.readD s1.2 []))

/-! ### Counting value placeholders -/

/-- Number of `%` characters of a statement fragment; on fragments whose
identifiers are `%`-free this is exactly the number of `%s` value
placeholders, since the builder introduces `%` only through `%s`. -/
def numPct (s : String) : Nat := s.data.count '%'

/-- A string with no `%` character (true of sane SQL identifiers and
operators). -/
def pctFree (s : String) : Bool := s.data.all (fun c => c != '%')

/-- All identifier parts of a filter key are `%`-free. -/
def keyPctFree : FilterKey → Bool
  | FilterKey.col c => pctFree c
  | FilterKey.pair c op => pctFree c && pctFree op
  | FilterKey.triple c op fn => pctFree c && pctFree op && pctFree fn

def PyVal.isSet : PyVal → Bool
  | PyVal.vset _ => true
  | _ => false

/-- A one-dict heap holding a caller's filter map. -/
def c10HeapF : PyHeap FDict :=
  ⟨[(0, [(FilterKey.col ("a"), PyVal.vint 1), (existsKey, PyVal.vstr ("select 1"))])], 1⟩

/-- A one-dict heap holding a caller's value map. -/
def c10HeapV : PyHeap VDict :=
  ⟨[(0, [(("id"), PyVal.vstr ("")), (("a"), PyVal.vint 2)])], 1⟩

/-! ### Lemmas -/

theorem PyHeap.read_write_of_ne {δ : Type} (h : PyHeap δ) (r' : Nat) (d : δ) (r : Nat)
    (hne : r ≠ r') : (h.write r' d).read r = h.read r := by
  simp only [PyHeap.write, PyHeap.read, List.find?]
  have : (r' == r) = false := beq_eq_false_iff_ne.mpr (Ne.symm hne)
  simp [this]

theorem PyHeap.read_alloc_of_ne {δ : Type} (h : PyHeap δ) (d : δ) (r : Nat)
    (hne : r ≠ h.next) : (h.alloc d).1.read r = h.read r := by
  simp only [PyHeap.alloc, PyHeap.read, List.find?]
  have : (h.next == r) = false := beq_eq_false_iff_ne.mpr (Ne.symm hne)
  simp [this]

theorem PyHeap.alloc_snd {δ : Type} (h : PyHeap δ) (d : δ) : (h.alloc d).2 = h.next := rfl

theorem PyHeap.alloc_fst_next {δ : Type} (h : PyHeap δ) (d : δ) :
    (h.alloc d).1.next = h.next + 1 := rfl

theorem selectPopStep_read_ne (h : PyHeap FDict) (r' r : Nat) (hne : r ≠ r') :
    (selectPopStep h r').read r = h.read r := by
  unfold selectPopStep
  split
  · rfl
  · exact PyHeap.read_write_of_ne _ _ _ _ hne

theorem selectDictOps_read (h : PyHeap FDict) (wRef woRef r : Nat) (hr : r < h.next) :
    (selectDictOps h wRef woRef).read r = h.read r := by
  simp only [selectDictOps]
  rw [selectPopStep_read_ne, selectPopStep_read_ne, PyHeap.read_alloc_of_ne,
    PyHeap.read_alloc_of_ne]
  all_goals try simp only [PyHeap.alloc_snd, PyHeap.alloc_fst_next]
  all_goals omega

theorem insertValuesOps_read (h : PyHeap VDict) (vRef : Nat) (fv : Bool)
    (cols : List String) (mv : List (PyVal × PyVal)) (r : Nat) (hr : r < h.next) :
    (insertValuesOps h vRef fv cols mv).1.read r = h.read r := by
  simp only [insertValuesOps]
  split
  · rfl
  · cases fv
    · simp only [Bool.false_eq_true, if_false]
      rw [PyHeap.read_alloc_of_ne]
      omega
    · simp only [if_true]
      rw [PyHeap.read_alloc_of_ne, PyHeap.read_alloc_of_ne]
      all_goals try simp only [PyHeap.alloc_fst_next]
      all_goals omega

theorem updateValuesOps_read (h : PyHeap VDict) (vRef : Nat) (fv : Bool)
    (cols : List String) (mv : List (PyVal × PyVal)) (r : Nat) (hr : r < h.next) :
    (updateValuesOps h vRef fv cols mv).1.read r = h.read r := by
  simp only [updateValuesOps]
  cases fv
  · simp only [Bool.false_eq_true, if_false]
    rw [PyHeap.read_alloc_of_ne]
    omega
  · simp only [if_true]
    rw [PyHeap.read_alloc_of_ne, PyHeap.read_alloc_of_ne]
    all_goals try simp only [PyHeap.alloc_fst_next]
    all_goals omega

theorem upsertDelStep_read_ne (h : PyHeap VDict) (r' : Nat) (pk : String) (r : Nat)
    (hne : r ≠ r') : (upsertDelStep h r' pk).read r = h.read r := by
  simp only [upsertDelStep]
  split
  · split
    · exact PyHeap.read_write_of_ne _ _ _ _ hne
    · rfl
  · rfl

theorem upsertDelStep_next (h : PyHeap VDict) (r' : Nat) (pk : String) :
    (upsertDelStep h r' pk).next = h.next := by
  simp only [upsertDelStep]
  split
  · split <;> rfl
  · rfl

theorem realUpsertValuesOps_read (h : PyHeap VDict) (vRef : Nat) (pk : String) (fv : Bool)
    (cols : List String) (mv : List (PyVal × PyVal)) (r : Nat) (hr : r < h.next) :
    (realUpsertValuesOps h vRef pk fv cols mv).1.read r = h.read r := by
  simp only [realUpsertValuesOps]
  split
  · rfl
  · cases fv
    · simp only [Bool.false_eq_true, if_false]
      rw [PyHeap.read_alloc_of_ne]
      omega
    · simp only [if_true]
      rw [PyHeap.read_alloc_of_ne, upsertDelStep_read_ne, PyHeap.read_alloc_of_ne]
      · omega
      · simp only [PyHeap.alloc_snd]
        omega
      · rw [upsertDelStep_next]
        simp only [PyHeap.alloc_fst_next]
        omega

theorem numPct_append (a b : String) : numPct (a ++ b) = numPct a + numPct b := by
  simp [numPct, String.data_append, List.count_append]

theorem pctFree_numPct (s : String) (h : pctFree s = true) : numPct s = 0 := by
  simp only [pctFree, List.all_eq_true] at h
  simp only [numPct, List.count_eq_zero]
  intro hmem
  have := h _ hmem
  simp at this

theorem numPct_lit_sp : numPct " " = 0 := rfl

theorem numPct_lit_ps : numPct "%s" = 1 := rfl

theorem numPct_lit_eqs : numPct "=" = 0 := rfl

theorem numPct_lit_ins : numPct "in" = 0 := rfl

theorem numPct_lit_and : numPct " and " = 0 := rfl

theorem numPct_lit_lp : numPct "(" = 0 := rfl

theorem numPct_lit_rp : numPct ")" = 0 := rfl

theorem numPct_lit_fnps : numPct "(%s)" = 1 := rfl

/-- Each single comparison fragment carries exactly one `%s` placeholder. -/
theorem numPct_compItemStr (c : FilterKey) (v : PyVal) (hc : keyPctFree c = true) :
    numPct (compItemStr c v) = 1 := by
  cases c with
  | col name =>
    simp only [keyPctFree] at hc
    cases v <;>
      simp [compItemStr, getWhereClauseCompItem, numPct_append, pctFree_numPct _ hc,
        numPct_lit_sp, numPct_lit_ps, numPct_lit_eqs, numPct_lit_ins]
  | pair name op =>
    simp only [keyPctFree, Bool.and_eq_true] at hc
    simp [compItemStr, getWhereClauseCompItem, numPct_append, pctFree_numPct _ hc.1,
      pctFree_numPct _ hc.2, numPct_lit_sp, numPct_lit_ps]
  | triple name op fn =>
    simp only [keyPctFree, Bool.and_eq_true] at hc
    simp [compItemStr, getWhereClauseCompItem, numPct_append, pctFree_numPct _ hc.1.1,
      pctFree_numPct _ hc.1.2, pctFree_numPct _ hc.2, numPct_lit_sp, numPct_lit_lp,
      numPct_lit_rp, numPct_lit_fnps]

/-- The AND-join of the per-member fragments of a set-valued filter entry
carries one placeholder per member. -/
theorem numPct_pyJoin_compItems (c : FilterKey) (hc : keyPctFree c = true) (l : List PyVal) :
    numPct (pyJoin (" and ") (l.map (fun vv => compItemStr c vv))) = l.length := by
  induction l with
  | nil => rfl
  | cons v t ih =>
    cases t with
    | nil => simpa [pyJoin] using numPct_compItemStr c v hc
    | cons w t2 =>
      have hstep : pyJoin (" and ") ((v :: w :: t2).map (fun vv => compItemStr c vv))
          = compItemStr c v ++ " and "
            ++ pyJoin (" and ") ((w :: t2).map (fun vv => compItemStr c vv)) := rfl
      rw [hstep, numPct_append, numPct_append, numPct_compItemStr c v hc, numPct_lit_and, ih]
      simp [Nat.add_comm]

/-! ### Supporting lemmas for the claims -/

/-- `isinstance(v, set)`. -/
theorem applyMapValues_nil (vs : VDict) : applyMapValues [] vs = vs := by
  induction vs with
  | nil => rfl
  | cons kv t ih => simp [applyMapValues, mapGet] at ih ⊢

theorem dictDel_not_mem (d : VDict) (k : String) : k ∉ (dictDel d k).map Prod.fst := by
  intro hmem
  rcases List.mem_map.mp hmem with ⟨cv, hcv, hfst⟩
  have hp := List.of_mem_filter hcv
  rw [hfst] at hp
  simp at hp

theorem checkArgs_rejects (f k : String) (args allowed : List String)
    (hk : k ∈ args) (hna : k ∉ allowed) :
    checkArgs f args allowed
        = Except.error
            (PGError.unsupportedOption f ((args.filter (fun a => !allowed.contains a)).dedup))
    ∧ k ∈ (args.filter (fun a => !allowed.contains a)).dedup := by
  have hcontains : allowed.contains k = false := by
    cases hc : allowed.contains k
    · rfl
    · exact absurd (List.mem_of_elem_eq_true hc) hna
  constructor
  · unfold checkArgs
    rw [if_neg]
    intro hall
    have := List.all_eq_true.mp hall k hk
    rw [hcontains] at this
    cases this
  · refine List.mem_dedup.mpr (List.mem_filter.mpr ⟨hk, ?_⟩)
    rw [hcontains]
    rfl

/-! ### The claims -/

/-- C2 counterexample: the claim says a *list or tuple* value defaults the
operator to `in`, but the code tests `isinstance(v, tuple)` only, so the
Python list `[18, 19, 20]` compiles to `"age = %s"`, not `"age in %s"`. -/
theorem c2_list_value_counterexample :
    getWhereClauseFrag (FilterKey.col ("age"))
        (PyVal.vlist [PyVal.vint 18, PyVal.vint 19, PyVal.vint 20]) = Except.ok ("age = %s")
    ∧ ("age = %s" : String) ≠ "age in %s" := by
  exact ⟨rfl, by decide⟩

/-- C2 (amended): for every plain-column filter key (other than the
reserved `"exists"` literal) whose value is a Python *tuple*, the operator
defaults to `in`, the fragment is `"<column> in %s"`, and the single bound
parameter is the whole tuple, which flattening leaves unchanged. -/
theorem c2_tuple_value_in (c : String) (l : List PyVal) (hc : c ≠ "exists") :
    getWhereClauseFrag (FilterKey.col c) (PyVal.vtuple l) = Except.ok (c ++ " in %s")
    ∧ flatten [PyVal.vtuple l] = [PyVal.vtuple l] := by
  constructor
  · unfold getWhereClauseFrag
    rw [if_neg (by simp [existsKey, hc])]
    show Except.ok (c ++ " " ++ "in" ++ " " ++ "%s") = _
    rw [String.append_assoc, String.append_assoc, String.append_assoc]
    exact congrArg (fun z => Except.ok (c ++ z)) (by decide)
  · rfl

/-- C2 witness. -/
theorem c2_tuple_value_in_witness :
    getWhereClauseFrag (FilterKey.col ("age"))
        (PyVal.vtuple [PyVal.vint 18, PyVal.vint 19, PyVal.vint 20]) = Except.ok ("age in %s")
    ∧ flatten [PyVal.vtuple [PyVal.vint 18, PyVal.vint 19, PyVal.vint 20]]
        = [PyVal.vtuple [PyVal.vint 18, PyVal.vint 19, PyVal.vint 20]] := by
  have h := c2_tuple_value_in ("age") [PyVal.vint 18, PyVal.vint 19, PyVal.vint 20] (by decide)
  exact ⟨by rw [h.1]; exact congrArg Except.ok (by decide), h.2⟩

/-- C3: a filter entry under the reserved `"exists"` key with a string
value `s` compiles to the fragment `exists (s)` and (in `select`, which
pops the entry before collecting `where.values()`) contributes zero bound
parameters; a non-string value raises the invalid-filter error (the
`assert isinstance(v, string_types)` at line 49). -/
theorem c3_exists_filter (s : String) (v : PyVal) (hv : ∀ t : String, v ≠ PyVal.vstr t) :
    getWhereClause [(existsKey, PyVal.vstr s)] ("and") = Except.ok ("exists (" ++ s ++ ")")
    ∧ execQueryVals (selectWhereVals [(existsKey, PyVal.vstr s)]) = []
    ∧ getWhereClause [(existsKey, v)] ("and") = Except.error PGError.invalidFilter := by
  refine ⟨rfl, rfl, ?_⟩
  cases v with
  | vstr t => exact absurd rfl (hv t)
  | vint n => rfl
  | vtuple l => rfl
  | vlist l => rfl
  | vset l => rfl
  | vnone => rfl

/-- C3 witness (the spec's own examples). -/
theorem c3_exists_filter_witness :
    getWhereClause [(existsKey, PyVal.vstr ("select 1 from t where t.x = 1"))] ("and")
        = Except.ok ("exists (select 1 from t where t.x = 1)")
    ∧ execQueryVals (selectWhereVals [(existsKey, PyVal.vstr ("select 1 from t where t.x = 1"))])
        = []
    ∧ getWhereClause [(existsKey, PyVal.vint 5)] ("and")
        = Except.error PGError.invalidFilter := by
  have h := c3_exists_filter ("select 1 from t where t.x = 1") (PyVal.vint 5)
      (fun t h' => by cases h')
  exact ⟨by rw [h.1]; exact congrArg Except.ok (by decide), h.2.1, h.2.2⟩

/-- C4: a 2-tuple filter key `(column, op)` compiles to
`"<column> <op> %s"` and a 3-tuple key `(column, op, fn)` compiles to
`"<fn>(<column>) <op> <fn>(%s)"`, for every non-set value (a set value is
expanded memberwise first, see C5). -/
theorem c4_tuple_key_fragments (col op fn : String) (v : PyVal) (hv : v.isSet = false) :
    getWhereClauseFrag (FilterKey.pair col op) v
        = Except.ok (col ++ " " ++ op ++ " " ++ "%s")
    ∧ getWhereClauseFrag (FilterKey.triple col op fn) v
        = Except.ok (fn ++ "(" ++ col ++ ")" ++ " " ++ op ++ " " ++ (fn ++ "(%s)")) := by
  cases v with
  | vset l => exact absurd hv (by simp [PyVal.isSet])
  | vint n => exact ⟨rfl, rfl⟩
  | vstr s => exact ⟨rfl, rfl⟩
  | vtuple l => exact ⟨rfl, rfl⟩
  | vlist l => exact ⟨rfl, rfl⟩
  | vnone => exact ⟨rfl, rfl⟩

/-- C4 witness (the spec's own examples). -/
theorem c4_tuple_key_fragments_witness :
    getWhereClauseFrag (FilterKey.pair ("price") (">")) (PyVal.vint 10)
        = Except.ok ("price > %s")
    ∧ getWhereClauseFrag (FilterKey.triple ("price") (">") ("abs")) (PyVal.vint (-10))
        = Except.ok ("abs(price) > abs(%s)") := by
  have h := c4_tuple_key_fragments ("price") (">") ("abs") (PyVal.vint 10) rfl
  have h2 := c4_tuple_key_fragments ("price") (">") ("abs") (PyVal.vint (-10)) rfl
  exact ⟨by rw [h.1]; exact congrArg Except.ok (by decide),
    by rw [h2.2]; exact congrArg Except.ok (by decide)⟩

/-- C5: a set-valued filter entry under a non-`"exists"` key compiles each
member independently against the same key with the normal rules, joins the
fragments with `" and "` inside one pair of parentheses, and each member
contributes exactly one bound parameter: flattening expands the set to its
members, and the fragment carries exactly one `%s` per member (key
identifiers being `%`-free). -/
theorem c5_set_value (c : FilterKey) (l : List PyVal) (hc : c ≠ existsKey)
    (hp : keyPctFree c = true) :
    getWhereClauseFrag c (PyVal.vset l)
        = Except.ok ("(" ++ pyJoin (" and ") (l.map (fun vv => compItemStr c vv)) ++ ")")
    ∧ flatten [PyVal.vset l] = l
    ∧ numPct ("(" ++ pyJoin (" and ") (l.map (fun vv => compItemStr c vv)) ++ ")")
        = l.length := by
  refine ⟨?_, ?_, ?_⟩
  · unfold getWhereClauseFrag
    rw [if_neg hc]
  · simp [flatten]
  · rw [numPct_append, numPct_append, numPct_lit_lp, numPct_lit_rp,
      numPct_pyJoin_compItems c hp l]
    omega

/-- C5 witness (the spec's mixed plain/tuple-member example
`{"x": {1, ("y", "<", 5)}}`: each member is compiled against the key `x`;
the tuple member is an `in`-value). -/
theorem c5_set_value_witness :
    getWhereClauseFrag (FilterKey.col ("x"))
        (PyVal.vset [PyVal.vint 1, PyVal.vtuple [PyVal.vstr ("y"), PyVal.vstr ("<"), PyVal.vint 5]])
        = Except.ok ("(x = %s and x in %s)")
    ∧ flatten [PyVal.vset [PyVal.vint 1,
          PyVal.vtuple [PyVal.vstr ("y"), PyVal.vstr ("<"), PyVal.vint 5]]]
        = [PyVal.vint 1, PyVal.vtuple [PyVal.vstr ("y"), PyVal.vstr ("<"), PyVal.vint 5]]
    ∧ numPct ("(x = %s and x in %s)") = 2 := by
  have h := c5_set_value (FilterKey.col ("x"))
      [PyVal.vint 1, PyVal.vtuple [PyVal.vstr ("y"), PyVal.vstr ("<"), PyVal.vint 5]]
      (by decide) (by decide)
  exact ⟨by rw [h.1]; exact congrArg Except.ok (by decide), h.2.1, h.2.2⟩

/-- C6: with `rows='one'`, `select` raises the too-many-rows error when the
query returned more than one row, returns the single row when exactly one
came back, and returns an absent result (no error) on zero rows. -/
theorem c6_select_rows_one (results : List Row) :
    (1 < results.length → selectShape ("one") results = Except.error PGError.tooManyRows)
    ∧ (∀ r : Row, results = [r]
        → selectShape ("one") results = Except.ok (SelectResult.one (some r)))
    ∧ (results = [] → selectShape ("one") results = Except.ok (SelectResult.one none)) := by
  refine ⟨?_, ?_, ?_⟩
  · intro hlen
    unfold selectShape
    rw [if_neg (by decide), if_pos rfl, if_pos hlen]
  · rintro r rfl
    rfl
  · rintro rfl
    rfl

/-- C6 witness. -/
theorem c6_select_rows_one_witness :
    selectShape ("one") [[(("id"), PyVal.vint 1)], [(("id"), PyVal.vint 2)]]
        = Except.error PGError.tooManyRows
    ∧ selectShape ("one") [[(("id"), PyVal.vint 1)]]
        = Except.ok (SelectResult.one (some [(("id"), PyVal.vint 1)]))
    ∧ selectShape ("one") ([] : List Row) = Except.ok (SelectResult.one none) := by
  refine ⟨(c6_select_rows_one _).1 (by decide), (c6_select_rows_one _).2.1 _ rfl,
    (c6_select_rows_one _).2.2 rfl⟩

/-- C1 (evaluated at the failing input): for the filter map
`{'exists': 'select 1 from u'}` the compiled boolean expression carries no
placeholder, and `select` (which pops the reserved key from its copy before
taking `where.values()`, lines 161 and 220) passes no bound parameter for
it — the invariant holds there.  `update` builds its parameter list as
`list(values.values()) + list(where.values()) + list(where_or.values())`
(line 400) *without* popping the reserved key (`delete`, line 514,
likewise), so the very same filter map makes the executed statement carry 1
placeholder but 2 flattened bound parameters. -/
theorem c1_update_where_exists_mismatch :
    getWhereClause [(existsKey, PyVal.vstr ("select 1 from u"))] ("and")
        = Except.ok ("exists (select 1 from u)")
    ∧ numPct ("exists (select 1 from u)") = 0
    ∧ execQueryVals (selectWhereVals [(existsKey, PyVal.vstr ("select 1 from u"))]) = []
    ∧ updateBuild ("t") [] [(("a"), PyVal.vint 1)]
          [(existsKey, PyVal.vstr ("select 1 from u"))] [] false [] []
        = Except.ok ("update t set (a) = (%s) where exists (select 1 from u) returning *",
            [PyVal.vint 1, PyVal.vstr ("select 1 from u")])
    ∧ numPct ("update t set (a) = (%s) where exists (select 1 from u) returning *") = 1
    ∧ (execQueryVals [PyVal.vint 1, PyVal.vstr ("select 1 from u")]).length = 2 := by
  exact ⟨rfl, by decide, rfl, rfl, by decide, rfl⟩

/-- C7 counterexample: on the native (>= 9.5) path the primary-key column
is *not* excluded from the update list — with `values = {'id': 1, 'a': 2}`
and primary key `id` the emitted statement sets
`id = excluded.id,a = excluded.a` — and a present-but-empty primary key is
*not* stripped from the value map when `filter_values` is off (the strip at
lines 447-449 sits inside the `filter_values` branch). -/
theorem c7_pkey_in_update_list :
    realUpsertQuery ("t") ("id") [] false [] [(("id"), PyVal.vint 1), (("a"), PyVal.vint 2)]
      = ("\n              insert into t (id,a) values (%s,%s)\n              on conflict (id) do update set id = excluded.id,a = excluded.a returning *\n            ",
         [PyVal.vint 1, PyVal.vint 2])
    ∧ upsertFilterPhase ("id") [("id")] false [(("id"), PyVal.vstr (""))]
        = [(("id"), PyVal.vstr (""))] := by
  exact ⟨rfl, rfl⟩

/-- C7 (amended): on a server of version 9.5 or later (dispatch
`v[0] > 9 or (v[0] >= 9 and v[1] >= 5)`), upsert with a non-empty value map
emits `insert into <t> (<fields>) values (<placeholders>) on conflict
(<pkey>) do update set <c> = excluded.<c>, ... returning *` over *every*
column of the value map (the primary-key column included), and the primary
key is stripped from the value map only when `filter_values` is on and the
primary key's value is falsy. -/
theorem c7_real_upsert_amended (table pkey : String) (values : VDict)
    (hne : values ≠ []) :
    realUpsertQuery table pkey [] false [] values
      = ("\n              insert into " ++ table ++ " ("
           ++ pyJoin (",") (values.map Prod.fst) ++ ") values ("
           ++ pyJoin (",") (values.map (fun _ => "%s"))
           ++ ")\n              on conflict (" ++ pkey ++ ") do update set "
           ++ pyJoin (",") (values.map (fun cv => cv.1 ++ " = excluded." ++ cv.1))
           ++ " returning *\n            ",
         values.map Prod.snd)
    ∧ (∀ (cols : List String) (v : PyVal) (rest : VDict),
        cols.contains pkey = true → pyFalsy v = true →
        pkey ∉ (upsertFilterPhase pkey cols true ((pkey, v) :: rest)).map Prod.fst)
    ∧ upsertImplIsReal (9, 5) = true ∧ upsertImplIsReal (9, 4) = false := by
  refine ⟨?_, ?_, by decide, by decide⟩
  · cases values with
    | nil => exact absurd rfl hne
    | cons kv t =>
      simp only [realUpsertQuery, List.isEmpty_cons, Bool.false_eq_true, if_false,
        upsertFilterPhase, applyMapValues_nil]
  · intro cols v rest hmem hfal
    have hstep : filterValuesByColumns cols ((pkey, v) :: rest)
        = (pkey, v) :: filterValuesByColumns cols rest := by
      unfold filterValuesByColumns
      rw [List.filter_cons_of_pos]
      exact hmem
    have hfind : ((pkey, v) :: filterValuesByColumns cols rest).find?
          (fun cv => cv.1 == pkey) = some (pkey, v) :=
      List.find?_cons_of_pos _ (by simp)
    unfold upsertFilterPhase
    rw [if_pos rfl]
    simp only [hstep, hfind]
    rw [if_pos hfal]
    exact dictDel_not_mem _ _

/-- C7 witness. -/
theorem c7_real_upsert_amended_witness :
    realUpsertQuery ("t") ("id") [] false [] [(("a"), PyVal.vint 2)]
      = ("\n              insert into t (a) values (%s)\n              on conflict (id) do update set a = excluded.a returning *\n            ",
         [PyVal.vint 2])
    ∧ ("id") ∉ (upsertFilterPhase ("id") [("id")] true
          [(("id"), PyVal.vstr ("")), (("a"), PyVal.vint 2)]).map Prod.fst := by
  have h := c7_real_upsert_amended ("t") ("id") [(("a"), PyVal.vint 2)]
      (List.cons_ne_nil _ _)
  refine ⟨?_, h.2.1 [("id")] (PyVal.vstr ("")) [(("a"), PyVal.vint 2)] (by decide) (by decide)⟩
  rw [h.1]
  exact congrArg (fun z => (z, [PyVal.vint 2])) (by decide)

/-- C8 (evaluated at the failing input): on the pre-9.5 fallback path,
whenever the primary key is present in the value map the check-then-act
lookup at line 430 evaluates the unbound module-level name `select1` and
raises `NameError` instead of looking up the row and updating it; only the
plain-insert branch (primary key absent, `and` short-circuits) is
reachable. -/
theorem c8_fake_upsert_broken :
    fakeUpsert ("id") [(("id"), PyVal.vint 1), (("a"), PyVal.vint 2)]
        = Except.error (PGError.nameError ("select1"))
    ∧ fakeUpsert ("id") [(("a"), PyVal.vint 2)] = Except.ok FakeUpsertBranch.insertBranch
    ∧ upsertImplIsReal (9, 4) = false := by
  exact ⟨rfl, rfl, rfl⟩

/-- C9: every verb validates its keyword options against its fixed
allow-list: an argument list containing any option outside the verb's list
makes `_check_args` raise the unsupported-option error naming the offending
options (shown for all nine verbs), the whole statement build fails before
anything is assembled (shown for `update`, whose builder runs `_check_args`
first), and an all-allowed argument list passes (nothing is silently
ignored or spuriously rejected). -/
theorem c9_unknown_option_rejected (args : List String) (k : String) (hk : k ∈ args) :
    (k ∉ selectAllowedArgs →
      checkArgs ("select") args selectAllowedArgs
        = Except.error (PGError.unsupportedOption ("select")
            ((args.filter (fun a => !selectAllowedArgs.contains a)).dedup)))
    ∧ (k ∉ select1AllowedArgs →
      checkArgs ("select1") args select1AllowedArgs
        = Except.error (PGError.unsupportedOption ("select1")
            ((args.filter (fun a => !select1AllowedArgs.contains a)).dedup)))
    ∧ (k ∉ selectIdAllowedArgs →
      checkArgs ("select_id") args selectIdAllowedArgs
        = Except.error (PGError.unsupportedOption ("select_id")
            ((args.filter (fun a => !selectIdAllowedArgs.contains a)).dedup)))
    ∧ (k ∉ insertAllowedArgs →
      checkArgs ("insert") args insertAllowedArgs
        = Except.error (PGError.unsupportedOption ("insert")
            ((args.filter (fun a => !insertAllowedArgs.contains a)).dedup)))
    ∧ (k ∉ updateAllowedArgs →
      checkArgs ("update") args updateAllowedArgs
        = Except.error (PGError.unsupportedOption ("update")
            ((args.filter (fun a => !updateAllowedArgs.contains a)).dedup)))
    ∧ (k ∉ upsertAllowedArgs →
      checkArgs ("upsert") args upsertAllowedArgs
        = Except.error (PGError.unsupportedOption ("upsert")
            ((args.filter (fun a => !upsertAllowedArgs.contains a)).dedup)))
    ∧ (k ∉ deleteAllowedArgs →
      checkArgs ("delete") args deleteAllowedArgs
        = Except.error (PGError.unsupportedOption ("delete")
            ((args.filter (fun a => !deleteAllowedArgs.contains a)).dedup)))
    ∧ (k ∉ countAllowedArgs →
      checkArgs ("count") args countAllowedArgs
        = Except.error (PGError.unsupportedOption ("count")
            ((args.filter (fun a => !countAllowedArgs.contains a)).dedup)))
    ∧ (k ∉ existsAllowedArgs →
      checkArgs ("exists") args existsAllowedArgs
        = Except.error (PGError.unsupportedOption ("exists")
            ((args.filter (fun a => !existsAllowedArgs.contains a)).dedup)))
    ∧ (k ∉ updateAllowedArgs → ∀ (table : String) (values : VDict) (w wo : FDict)
          (fv : Bool) (cols : List String) (mv : List (PyVal × PyVal)),
          updateBuild table args values w wo fv cols mv
            = Except.error (PGError.unsupportedOption ("update")
                ((args.filter (fun a => !updateAllowedArgs.contains a)).dedup)))
    ∧ (args.all (fun a => selectAllowedArgs.contains a) = true →
        checkArgs ("select") args selectAllowedArgs = Except.ok ()) := by
  refine ⟨fun hna => (checkArgs_rejects _ k args _ hk hna).1,
    fun hna => (checkArgs_rejects _ k args _ hk hna).1,
    fun hna => (checkArgs_rejects _ k args _ hk hna).1,
    fun hna => (checkArgs_rejects _ k args _ hk hna).1,
    fun hna => (checkArgs_rejects _ k args _ hk hna).1,
    fun hna => (checkArgs_rejects _ k args _ hk hna).1,
    fun hna => (checkArgs_rejects _ k args _ hk hna).1,
    fun hna => (checkArgs_rejects _ k args _ hk hna).1,
    fun hna => (checkArgs_rejects _ k args _ hk hna).1, ?_, ?_⟩
  · intro hna table values w wo fv cols mv
    unfold updateBuild
    rw [(checkArgs_rejects ("update") k args updateAllowedArgs hk hna).1]
    rfl
  · intro hall
    unfold checkArgs
    rw [if_pos hall]

/-- C9 witness. -/
theorem c9_unknown_option_rejected_witness :
    checkArgs ("select") [("bogus")] selectAllowedArgs
        = Except.error (PGError.unsupportedOption ("select") [("bogus")])
    ∧ checkArgs ("delete") [("bogus")] deleteAllowedArgs
        = Except.error (PGError.unsupportedOption ("delete") [("bogus")])
    ∧ updateBuild ("t") [("bogus")] [] [] [] false [] []
        = Except.error (PGError.unsupportedOption ("update") [("bogus")])
    ∧ checkArgs ("select") [("where"), ("limit")] selectAllowedArgs = Except.ok () := by
  have h := c9_unknown_option_rejected [("bogus")] ("bogus") (List.mem_singleton.mpr rfl)
  refine ⟨?_, ?_, ?_, ?_⟩
  · rw [h.1 (by decide)]
    exact congrArg (fun bad => Except.error (PGError.unsupportedOption ("select") bad))
      (by decide)
  · rw [h.2.2.2.2.2.2.1 (by decide)]
    exact congrArg (fun bad => Except.error (PGError.unsupportedOption ("delete") bad))
      (by decide)
  · rw [h.2.2.2.2.2.2.2.2.2.1 (by decide) ("t") [] [] [] false [] []]
    exact congrArg (fun bad => Except.error (PGError.unsupportedOption ("update") bad))
      (by decide)
  · have h2 := c9_unknown_option_rejected [("where"), ("limit")] ("where")
      (List.mem_cons_self _ _)
    exact h2.2.2.2.2.2.2.2.2.2.2 (by decide)

/-- C10: no verb mutates its caller-supplied dicts.  Each verb's dict
operations are embedded against an explicit heap of dict objects: `select`
copies `where`/`where_or` and pops the reserved `'exists'` key on the
copies only; `insert`, `update` and `_real_upsert` rebuild the value map
with comprehensions (and `_real_upsert`'s primary-key delete mutates only
its own fresh dict).  Every dict the caller passed in reads back unchanged
afterwards. -/
theorem c10_no_caller_dict_mutation (hF : PyHeap FDict) (hV : PyHeap VDict)
    (wRef woRef vRef : Nat) (hw : wRef < hF.next) (hwo : woRef < hF.next)
    (hv : vRef < hV.next) (fv : Bool) (cols : List String)
    (mv : List (PyVal × PyVal)) (pk : String) :
    (selectDictOps hF wRef woRef).read wRef = hF.read wRef
    ∧ (selectDictOps hF wRef woRef).read woRef = hF.read woRef
    ∧ (insertValuesOps hV vRef fv cols mv).1.read vRef = hV.read vRef
    ∧ (updateValuesOps hV vRef fv cols mv).1.read vRef = hV.read vRef
    ∧ (realUpsertValuesOps hV vRef pk fv cols mv).1.read vRef = hV.read vRef :=
  ⟨selectDictOps_read hF wRef woRef wRef hw,
   selectDictOps_read hF wRef woRef woRef hwo,
   insertValuesOps_read hV vRef fv cols mv vRef hv,
   updateValuesOps_read hV vRef fv cols mv vRef hv,
   realUpsertValuesOps_read hV vRef pk fv cols mv vRef hv⟩

/-- C10 witness. -/
theorem c10_no_caller_dict_mutation_witness :
    (selectDictOps c10HeapF 0 0).read 0 = c10HeapF.read 0
    ∧ (insertValuesOps c10HeapV 0 true [("id")] []).1.read 0 = c10HeapV.read 0
    ∧ (updateValuesOps c10HeapV 0 true [("id")] []).1.read 0 = c10HeapV.read 0
    ∧ (realUpsertValuesOps c10HeapV 0 ("id") true [("id")] []).1.read 0
        = c10HeapV.read 0 := by
  have h := c10_no_caller_dict_mutation c10HeapF c10HeapV 0 0 0
      (by decide) (by decide) (by decide) true [("id")] [] ("id")
  exact ⟨h.1, h.2.2.1, h.2.2.2.1, h.2.2.2.2⟩

